import Mathlib

/-!
Shallow embedding of the AGVeval core (src/Python/AGVUseCaseFunctions.py):
the parameter records (`Assumption`, `Vehicle`, `Agv`, `Input`), the mission
performance model `ModelAGVMission`, the financial model `ModelAGVUseCase`,
and the sensitivity engine `SenstivityAnalysis`.

Modelling conventions:
- Python/numpy floating-point scalars are modelled as exact rationals `ℚ`.
- `np.exp` is transcendental, so `ModelAGVMission` is parametrised by an
  arbitrary function `e : ℚ → ℚ` standing for it; every theorem about the
  mission model holds for every such `e`.
- The external library calls `npf.pmt` and `npf.nper` (numpy_financial, not
  part of this repository) are likewise uninterpreted parameters of
  `ModelAGVUseCase`; `npf.npv` is implemented exactly, as the documented sum
  `Σ values[t] / (1 + rate)^t` with `t` starting at 0.
- The only statements in `ModelAGVUseCase` that can raise a Python exception
  are the two divisions `material_to_move / material_capacity` (lines 264 and
  300): a `ZeroDivisionError` occurs there exactly when both operands are
  pure-Python scalars and the capacity is zero.  Caller-supplied records have
  pure-Python `int` capacities (the dataclass declarations), so a zero
  capacity from the caller raises; a field that `SenstivityAnalysis` has
  perturbed is an `np.float64` (the offsets come from a numpy array), and a
  capacity perturbed to `0.0` does NOT raise — numpy zero-division yields
  `inf` with a `RuntimeWarning`.  The `Option` result is `none` on zero
  capacity; this is a faithful exception model precisely for states whose
  zero capacities (if any) are caller-supplied, and every theorem that
  exercises the `none` branch does so at such a state (the sensitivity run
  below perturbs `discount_rate`, never a capacity).  `inf` itself is not
  representable in `ℚ`; theorems that depend on the float divisions carry
  explicit nonzero-divisor hypotheses instead.
-/

namespace AGVeval

/-- Python truncation toward zero, as performed by `int(...)`. -/
def pyInt (q : ℚ) : ℤ := if q < 0 then ⌈q⌉ else ⌊q⌋

/-- numpy clip: `np.clip(x, lo, hi)` is `np.minimum(hi, np.maximum(x, lo))`. -/
def np_clip (x lo hi : ℚ) : ℚ := min hi (max x lo)

/-- numpy `np.linspace(start, stop, num)`: `num` evenly spaced samples from
`start` to `stop` inclusive (step `(stop - start)/(num - 1)` for `num ≥ 2`). -/
def np_linspace (start stop : ℚ) (num : ℕ) : List ℚ :=
  if num = 0 then []
  else if num = 1 then [start]
  else (List.range num).map
    (fun k : ℕ => start + (stop - start) * (k : ℚ) / ((num : ℚ) - 1))

/-- numpy `np.insert(xs, k, v)` for a scalar `v` and an index `0 ≤ k ≤ len(xs)`:
insert `v` before position `k`. -/
def np_insert : ℕ → ℚ → List ℚ → List ℚ
  | 0, v, xs => v :: xs
  | _ + 1, v, [] => [v]
  | k + 1, v, x :: xs => x :: np_insert k v xs

/-- The `Assumption` dataclass.  `technology_readiness` is declared `int` in
Python but participates in rational arithmetic, so it is carried as `ℚ`. -/
structure Assumption where
  discount_rate : ℚ
  electricity_price : ℚ
  diesel_price : ℚ
  diesel_energy : ℚ
  data_carriage : ℚ
  years_of_operation : ℚ
  technology_readiness : ℚ
  company_acceptance : ℚ
  mission_similarity : ℚ
  mission_determinism : ℚ
  deriving DecidableEq

/-- The `Vehicle` dataclass (a human operated vehicle). -/
structure Vehicle where
  vehicle_cost : ℚ
  vehicle_energy_consumption : ℚ
  operator_hourly_wage : ℚ
  vehicle_maintainance : ℚ
  vehicle_eol_cost : ℚ
  vehicle_average_speed : ℚ
  vehicle_material_capacity : ℚ
  vehicle_max_shift_length : ℚ
  deriving DecidableEq

/-- The `Agv` dataclass (an autonomous guided vehicle). -/
structure Agv where
  agv_cost : ℚ
  agv_leasing : ℚ
  agv_maintenance : ℚ
  agv_eol_cost : ℚ
  agv_average_speed : ℚ
  agv_charge_rate : ℚ
  agv_disengagement_per_km : ℚ
  agv_disengagement_time : ℚ
  agv_material_capacity : ℚ
  agv_energy_consumption : ℚ
  agv_max_shift_length : ℚ
  agv_data_use : ℚ
  deriving DecidableEq

/-- The `Input` dataclass: mission parameters plus the two vehicle records. -/
structure Input where
  mission_length : ℚ
  material_to_move : ℚ
  yearly_operation_days : ℚ
  vehicle : Vehicle
  agv : Agv
  deriving DecidableEq

/-- The full mutable state seen by `ModelAGVUseCase` and `SenstivityAnalysis`:
the `assumptions` and `inputs` records that Python passes by reference. -/
structure State where
  assumptions : Assumption
  inputs : Input
  deriving DecidableEq

/-- The `Output` dataclass.  `min_savings` and `nper` are whatever the
uninterpreted `npf.pmt` / `npf.nper` parameters return. -/
structure Output where
  annual_savings : ℚ
  cumulative_vehicle_annual_cost : ℚ
  cumulative_agv_annual_cost : ℚ
  cash_flows : List ℚ
  npv : ℚ
  min_savings : ℚ
  nper : ℚ
  num_robots : ℤ
  deriving DecidableEq

/-- The mission performance model `ModelAGVMission`, parametrised by `e` for
`np.exp`.  It clamps the three soft mission factors in place (returned as the
updated `Assumption`), computes the curve-fit speed/disengagement statistics,
and clamps the three outputs.  Returns
`(mutated assumptions, AverageSpeed, DisengagementsPerKm, TimePerDisengagement)`. -/
def ModelAGVMission (e : ℚ → ℚ) (assumptions : Assumption) :
    Assumption × ℚ × ℚ × ℚ :=
  let ca := np_clip assumptions.company_acceptance 0.1 1
  let ms := np_clip assumptions.mission_similarity 0.1 1
  let md := np_clip assumptions.mission_determinism 0.1 1
  let assumptions' := { assumptions with
    company_acceptance := ca, mission_similarity := ms, mission_determinism := md }
  let AverageSpeed :=
    0.5 * 0.7544 * e (0.517 * assumptions.technology_readiness) * ms * md
  let TimePerDisengagement := 243.16 * e (-(0.679) * assumptions.technology_readiness)
  let DisengagementsPerKm :=
    5.133 * e (-(1.083) * assumptions.technology_readiness) / ca / md
  (assumptions',
    np_clip AverageSpeed 0.5 64,
    np_clip DisengagementsPerKm 0.0008 2,
    np_clip TimePerDisengagement 0.5 120)

/-- The in-place sanity clamps at the top of `ModelAGVUseCase`:
`inputs.yearly_operation_days = int(np.clip(days, 1, 365))` and
`assumptions.diesel_energy = np.clip(diesel_energy, 0.95, 0.97)`. -/
def clampState (s : State) : State :=
  { s with
    assumptions := { s.assumptions with
      diesel_energy := np_clip s.assumptions.diesel_energy 0.95 0.97 }
    inputs := { s.inputs with
      yearly_operation_days :=
        ((pyInt (np_clip s.inputs.yearly_operation_days 1 365) : ℤ) : ℚ) } }

/-- Line 264: `VehicleDailyMissions = np.ceil(material_to_move / vehicle_material_capacity)`.
The ceiling of a float is an integral value; it is carried as `ℤ`. -/
def VehicleDailyMissions (s : State) : ℤ :=
  ⌈s.inputs.material_to_move / s.inputs.vehicle.vehicle_material_capacity⌉

/-- Line 267: `VehicleDailyDistance = mission_length * VehicleDailyMissions` (km/day). -/
def VehicleDailyDistance (s : State) : ℚ :=
  s.inputs.mission_length * (VehicleDailyMissions s : ℚ)

/-- Line 268: `VehicleDailyTime = VehicleDailyDistance / vehicle_average_speed` (hr/day). -/
def VehicleDailyTime (s : State) : ℚ :=
  VehicleDailyDistance s / s.inputs.vehicle.vehicle_average_speed

/-- Line 271: `NumberOfVehicles = np.ceil(VehicleDailyTime / vehicle_max_shift_length)`. -/
def NumberOfVehicles (s : State) : ℤ :=
  ⌈VehicleDailyTime s / s.inputs.vehicle.vehicle_max_shift_length⌉

/-- Line 275: `VehiclePurchasePrice = NumberOfVehicles * vehicle_cost` (CHF). -/
def VehiclePurchasePrice (s : State) : ℚ :=
  (NumberOfVehicles s : ℚ) * s.inputs.vehicle.vehicle_cost

/-- Line 277: vehicle diesel cost per year. -/
def VehicleEnergyCost (s : State) : ℚ :=
  s.inputs.vehicle.vehicle_energy_consumption / 100 * s.assumptions.diesel_price *
    VehicleDailyDistance s * s.inputs.yearly_operation_days

/-- Line 285: vehicle operator cost per year. -/
def VehicleOperatorCost (s : State) : ℚ :=
  VehicleDailyTime s * s.inputs.vehicle.operator_hourly_wage *
    s.inputs.yearly_operation_days

/-- Line 291: `VehicleAnnualOperationCost = VehicleEnergyCost + VehicleOperatorCost`. -/
def VehicleAnnualOperationCost (s : State) : ℚ :=
  VehicleEnergyCost s + VehicleOperatorCost s

/-- Line 292: `VehicleAnnualMaintenanceCost = vehicle_maintainance * 12` (CHF/year). -/
def VehicleAnnualMaintenanceCost (s : State) : ℚ :=
  s.inputs.vehicle.vehicle_maintainance * 12

/-- Line 293: `VehicleAnnualCost = NumberOfVehicles * (operation + maintenance)`. -/
def VehicleAnnualCost (s : State) : ℚ :=
  (NumberOfVehicles s : ℚ) *
    (VehicleAnnualOperationCost s + VehicleAnnualMaintenanceCost s)

/-- Line 296: `VehicleEndOfLifeCost = NumberOfVehicles * vehicle_eol_cost` (CHF). -/
def VehicleEndOfLifeCost (s : State) : ℚ :=
  (NumberOfVehicles s : ℚ) * s.inputs.vehicle.vehicle_eol_cost

/-- Line 300: `AGVDailyMissions = np.ceil(material_to_move / agv_material_capacity)`. -/
def AGVDailyMissions (s : State) : ℤ :=
  ⌈s.inputs.material_to_move / s.inputs.agv.agv_material_capacity⌉

/-- Line 303: `AGVDailyDistance = mission_length * AGVDailyMissions` (km/day). -/
def AGVDailyDistance (s : State) : ℚ :=
  s.inputs.mission_length * (AGVDailyMissions s : ℚ)

/-- Line 304: `AGVDailyEnergy = AGVDailyDistance * agv_energy_consumption` (kWh). -/
def AGVDailyEnergy (s : State) : ℚ :=
  AGVDailyDistance s * s.inputs.agv.agv_energy_consumption

/-- Line 305: `AGVDailyTime = AGVDailyDistance/agv_average_speed + AGVDailyEnergy/agv_charge_rate`. -/
def AGVDailyTime (s : State) : ℚ :=
  AGVDailyDistance s / s.inputs.agv.agv_average_speed +
    AGVDailyEnergy s / s.inputs.agv.agv_charge_rate

/-- Line 310: `NumberOfAGVs = np.ceil(AGVDailyTime / agv_max_shift_length)`. -/
def NumberOfAGVs (s : State) : ℤ :=
  ⌈AGVDailyTime s / s.inputs.agv.agv_max_shift_length⌉

/-- Line 313: `AGVPurchasePrice = NumberOfAGVs * agv_cost` (CHF). -/
def AGVPurchasePrice (s : State) : ℚ :=
  (NumberOfAGVs s : ℚ) * s.inputs.agv.agv_cost

/-- Line 314: `AGVLeasingPrice = NumberOfAGVs * agv_leasing` (CHF). -/
def AGVLeasingPrice (s : State) : ℚ :=
  (NumberOfAGVs s : ℚ) * s.inputs.agv.agv_leasing

/-- Line 320: AGV electricity cost per year (the source spells it `AGVEnegyCost`). -/
def AGVEnegyCost (s : State) : ℚ :=
  s.assumptions.electricity_price * s.inputs.agv.agv_energy_consumption *
    AGVDailyDistance s * s.inputs.yearly_operation_days

/-- Line 327: AGV data carriage cost per year. -/
def AGVDataCost (s : State) : ℚ :=
  s.assumptions.data_carriage * s.inputs.agv.agv_data_use *
    s.inputs.yearly_operation_days

/-- Line 333: `AGVCostPerDisengagement = agv_disengagement_time / 60 * operator_hourly_wage`. -/
def AGVCostPerDisengagement (s : State) : ℚ :=
  s.inputs.agv.agv_disengagement_time / 60 * s.inputs.vehicle.operator_hourly_wage

/-- Line 336: AGV disengagement cost per year. -/
def AGVDisengagementCost (s : State) : ℚ :=
  s.inputs.agv.agv_disengagement_per_km * AGVCostPerDisengagement s *
    AGVDailyDistance s * s.inputs.yearly_operation_days

/-- Line 343: `AGVAnnualOperationCost = AGVEnegyCost + AGVDataCost + AGVDisengagementCost`. -/
def AGVAnnualOperationCost (s : State) : ℚ :=
  AGVEnegyCost s + AGVDataCost s + AGVDisengagementCost s

/-- Line 346: `AGVAnnualMaintenanceCost = agv_maintenance * 12` (CHF/year). -/
def AGVAnnualMaintenanceCost (s : State) : ℚ :=
  s.inputs.agv.agv_maintenance * 12

/-- Line 347: `AGVAnnualCost = NumberOfAGVs * (operation + maintenance) + AGVLeasingPrice`. -/
def AGVAnnualCost (s : State) : ℚ :=
  (NumberOfAGVs s : ℚ) * (AGVAnnualOperationCost s + AGVAnnualMaintenanceCost s) +
    AGVLeasingPrice s

/-- Line 351: `AGVEndOfLifeCost = NumberOfAGVs * agv_eol_cost` (CHF). -/
def AGVEndOfLifeCost (s : State) : ℚ :=
  (NumberOfAGVs s : ℚ) * s.inputs.agv.agv_eol_cost

/-- Lines 354-357: `InvestmentCost = VehiclePurchasePrice - AGVPurchasePrice` when the
vehicle purchase is strictly cheaper, else `0`. -/
def InvestmentCost (s : State) : ℚ :=
  if VehiclePurchasePrice s < AGVPurchasePrice s then
    VehiclePurchasePrice s - AGVPurchasePrice s
  else 0

/-- Line 359: `AnnualSavings = VehicleAnnualCost - AGVAnnualCost` (CHF/year). -/
def AnnualSavings (s : State) : ℚ := VehicleAnnualCost s - AGVAnnualCost s

/-- Line 361: `EndOfLifePrice = VehicleEndOfLifeCost - AGVEndOfLifeCost` (CHF). -/
def EndOfLifePrice (s : State) : ℚ := VehicleEndOfLifeCost s - AGVEndOfLifeCost s

/-- Lines 365-369: `cashFlows = [InvestmentCost] + [AnnualSavings]*(int(years) - 1)
+ [AnnualSavings + EndOfLifePrice]`.  Python list repetition with a negative
count gives the empty list, which `Int.toNat` reproduces. -/
def cashFlows (s : State) : List ℚ :=
  [InvestmentCost s] ++
    List.replicate (pyInt s.assumptions.years_of_operation - 1).toNat (AnnualSavings s) ++
    [AnnualSavings s + EndOfLifePrice s]

/-- Helper for `npf_npv`: the discounted sum of a cash-flow tail whose first
entry sits at period `t`. -/
def npvFrom (rate : ℚ) : ℕ → List ℚ → ℚ
  | _, [] => 0
  | t, c :: cs => c / (1 + rate) ^ t + npvFrom rate (t + 1) cs

/-- The external `npf.npv(rate, values)`: `Σ values[t] / (1 + rate)^t`, the first
entry undiscounted (`t = 0`). -/
def npf_npv (rate : ℚ) (values : List ℚ) : ℚ := npvFrom rate 0 values

/-- The financial model `ModelAGVUseCase`, parametrised by the external
`npf.pmt` and `npf.nper` (each taking its three arguments as in the source).
It first applies the in-place clamps (which Python performs on the shared
records even when a later statement raises), hence the returned `State`;
the `Option` is `none` when a `material_capacity` is zero at the divisions
of lines 264 and 300.  That models the `ZeroDivisionError` of the
pure-Python scalar division, which is raised for a caller-supplied zero
capacity (the dataclass fields are `int`); a capacity perturbed to `0.0` by
the sensitivity loop would instead be an `np.float64` whose zero-division
yields `inf` silently, a state outside the faithful domain of this
`ℚ`-embedding and not exercised by any theorem below. -/
def ModelAGVUseCase (pmtF nperF : ℚ → ℚ → ℚ → ℚ) (s : State) : State × Option Output :=
  let s' := clampState s
  if s'.inputs.vehicle.vehicle_material_capacity = 0 ∨
      s'.inputs.agv.agv_material_capacity = 0 then
    (s', none)
  else
    (s', some
      { annual_savings := AnnualSavings s'
        cumulative_vehicle_annual_cost :=
          VehicleAnnualOperationCost s' * s'.assumptions.years_of_operation
        cumulative_agv_annual_cost :=
          AGVAnnualOperationCost s' * s'.assumptions.years_of_operation
        cash_flows := cashFlows s'
        npv := npf_npv s'.assumptions.discount_rate (cashFlows s')
        min_savings :=
          pmtF s'.assumptions.discount_rate s'.assumptions.years_of_operation
            (InvestmentCost s')
        nper :=
          nperF s'.assumptions.discount_rate (AnnualSavings s') (InvestmentCost s')
        num_robots := NumberOfAGVs s' })

/-- Lines 547-550 of `SenstivityAnalysis`: the offset vector
`np.insert(np.linspace(-minMaxPerc, minMaxPerc, numLevels) / 100, int(numLevels/2), 0)`. -/
def minMaxVecOffsets (minMaxPerc : ℚ) (numLevels : ℕ) : List ℚ :=
  np_insert (numLevels / 2) 0
    ((np_linspace (-minMaxPerc) minMaxPerc numLevels).map (fun x => x / 100))

/-- The perturb-evaluate loop of `SenstivityAnalysis` (lines 562-578).  The
dynamic `hasattr`/`getattr`/`setattr` field resolution is represented by the
resolved accessor pair `getK`/`setK` of the (unique) record holding the field.
Each trial sets the field to `origKey * (1 + perc)`, records the value read
back, runs the financial model (whose in-place clamps persist in the threaded
state), and records the npv.  When an evaluation raises — `none` from
`ModelAGVUseCase` — the exception propagates: the loop aborts with the state
as mutated so far (the source has no `try`/`finally`), which `Except.error`
carries.  On success it returns the final state and the accumulated value and
npv vectors. -/
def sensLoop (pmtF nperF : ℚ → ℚ → ℚ → ℚ) (getK : State → ℚ)
    (setK : ℚ → State → State) (origKey : ℚ) :
    List ℚ → State → List ℚ → List ℚ → Except State (State × List ℚ × List ℚ)
  | [], s, valVec, npvVec => .ok (s, valVec.reverse, npvVec.reverse)
  | perc :: rest, s, valVec, npvVec =>
    let s1 := setK (origKey * (1 + perc)) s
    match ModelAGVUseCase pmtF nperF s1 with
    | (s2, none) => .error s2
    | (s2, some out) =>
      sensLoop pmtF nperF getK setK origKey rest s2 (getK s1 :: valVec)
        (out.npv :: npvVec)

/-- The sensitivity engine `SenstivityAnalysis` (lines 531-589) for a field
resolved to the accessor pair `getK`/`setK`.  It reads the original value,
runs the perturb-evaluate loop over the offset vector, and — only on normal
completion — restores the original value as its final statement.  Returns
`(state after the call, minMaxVec, valVec, npvVec)`, or `Except.error` with
the state left behind by a mid-trial failure (the `[min, max]` reduction of
`valVec` returned by the source is a pure projection of `valVec` and is
omitted). -/
def SenstivityAnalysis (pmtF nperF : ℚ → ℚ → ℚ → ℚ) (getK : State → ℚ)
    (setK : ℚ → State → State) (minMaxPerc : ℚ) (numLevels : ℕ) (s : State) :
    Except State (State × List ℚ × List ℚ × List ℚ) :=
  let offsets := minMaxVecOffsets minMaxPerc numLevels
  let origKey := getK s
  match sensLoop pmtF nperF getK setK origKey offsets s [] [] with
  | .error sFail => .error sFail
  | .ok (sEnd, valVec, npvVec) =>
    .ok (setK origKey sEnd, offsets, valVec, npvVec)

/-- The baseline `Assumption` record of the main script (also §8 of the spec). -/
def baseAssumption : Assumption :=
  { discount_rate := 0.05
    electricity_price := 0.23
    diesel_price := 1.79
    diesel_energy := 0.96
    data_carriage := 0.7
    years_of_operation := 7
    technology_readiness := 8
    company_acceptance := 0.7
    mission_similarity := 0.8
    mission_determinism := 0.6 }

/-- The baseline `Vehicle` record of the main script. -/
def baseVehicle : Vehicle :=
  { vehicle_cost := 74000
    vehicle_energy_consumption := 6.5
    operator_hourly_wage := 51
    vehicle_maintainance := 120
    vehicle_eol_cost := 1800
    vehicle_average_speed := 12
    vehicle_material_capacity := 40
    vehicle_max_shift_length := 8 }

/-- The baseline `Agv` record of the main script. -/
def baseAgv : Agv :=
  { agv_cost := 115000
    agv_leasing := 0
    agv_maintenance := 200
    agv_eol_cost := 4000
    agv_average_speed := 3
    agv_charge_rate := 3
    agv_disengagement_per_km := 0.01
    agv_disengagement_time := 5
    agv_material_capacity := 20
    agv_energy_consumption := 0.14
    agv_max_shift_length := 24
    agv_data_use := 4 }

/-- The baseline scenario state of the main script (§8 of the spec). -/
def baseState : State :=
  { assumptions := baseAssumption
    inputs :=
      { mission_length := 2
        material_to_move := 200
        yearly_operation_days := 212
        vehicle := baseVehicle
        agv := baseAgv } }

/-- The CHEAPER AGV scenario: the baseline with `agv_cost` multiplied by `0.75`
(the main script computes `int(0.75 * 115000) = 86250`, which is exact here). -/
def cheaperState : State :=
  { baseState with
    inputs := { baseState.inputs with
      agv := { baseState.inputs.agv with agv_cost := 0.75 * 115000 } } }

/-- A zero-material scenario: the §8 baseline with `material_to_move = 0`.
All capacities, speeds and shift lengths stay strictly positive. -/
def zeroMaterialState : State :=
  { baseState with
    inputs := { baseState.inputs with material_to_move := 0 } }

/-- A negative-capacity scenario: the §8 baseline with
`vehicle_material_capacity = -40`. -/
def negCapacityState : State :=
  { baseState with
    inputs := { baseState.inputs with
      vehicle := { baseVehicle with vehicle_material_capacity := -40 } } }

/-- A zero-capacity scenario: the §8 baseline whose caller supplies
`vehicle_material_capacity = 0` — a Python `int` zero, since the caller
populates the `Vehicle` dataclass with `int` fields.  This is the §7
domain-error input: `material_to_move / vehicle_material_capacity` is then
the pure-Python division `200 / 0`, which raises `ZeroDivisionError`. -/
def zeroCapacityState : State :=
  { baseState with
    inputs := { baseState.inputs with
      vehicle := { baseVehicle with vehicle_material_capacity := 0 } } }

/-- The resolved getter for the field name `discount_rate`
(found by the `hasattr` chain on `assumptions`, the first record searched). -/
def rateGet (s : State) : ℚ := s.assumptions.discount_rate

/-- The resolved setter for the field name `discount_rate`. -/
def rateSet (v : ℚ) (s : State) : State :=
  { s with assumptions := { s.assumptions with discount_rate := v } }

/-- A fixed interpretation for the external `npf.pmt`/`npf.nper` parameters,
used whenever a closed statement needs a concrete instantiation. -/
def constZero : ℚ → ℚ → ℚ → ℚ := fun _ _ _ => 0

/-! ### Helper lemmas -/

/-- Evaluate an integer ceiling from two rational bounds. -/
lemma ceil_eval (a : ℚ) (z : ℤ) (h1 : (z : ℚ) - 1 < a) (h2 : a ≤ (z : ℚ)) :
    ⌈a⌉ = z :=
  Int.ceil_eq_iff.mpr ⟨h1, h2⟩

/-- A clip with ordered bounds lands inside the bounds, whatever the input. -/
lemma np_clip_mem (x lo hi : ℚ) (h : lo ≤ hi) :
    lo ≤ np_clip x lo hi ∧ np_clip x lo hi ≤ hi :=
  ⟨le_min h (le_max_right x lo), min_le_left hi _⟩

/-- The baseline scenario is a fixed point of the in-place sanity clamps. -/
lemma clampState_base : clampState baseState = baseState := by
  norm_num [clampState, baseState, baseAssumption, baseVehicle, baseAgv, np_clip,
    pyInt]

/-- Baseline: `VehicleDailyMissions = ceil(200/40) = 5`. -/
lemma vdm_base : VehicleDailyMissions baseState = 5 := by
  rw [VehicleDailyMissions,
    show baseState.inputs.material_to_move /
        baseState.inputs.vehicle.vehicle_material_capacity = (5 : ℚ) by
      norm_num [baseState, baseVehicle]]
  exact ceil_eval 5 5 (by norm_num) (by norm_num)

/-- Baseline: `NumberOfVehicles = ceil((10/12)/8) = 1`. -/
lemma nveh_base : NumberOfVehicles baseState = 1 := by
  rw [NumberOfVehicles,
    show VehicleDailyTime baseState /
        baseState.inputs.vehicle.vehicle_max_shift_length = (5 : ℚ) / 48 by
      rw [VehicleDailyTime, VehicleDailyDistance, vdm_base]
      norm_num [baseState, baseVehicle]]
  exact ceil_eval _ 1 (by norm_num) (by norm_num)

/-- Baseline: `AGVDailyMissions = ceil(200/20) = 10`. -/
lemma adm_base : AGVDailyMissions baseState = 10 := by
  rw [AGVDailyMissions,
    show baseState.inputs.material_to_move /
        baseState.inputs.agv.agv_material_capacity = (10 : ℚ) by
      norm_num [baseState, baseAgv]]
  exact ceil_eval 10 10 (by norm_num) (by norm_num)

/-- Baseline: `NumberOfAGVs = ceil(7.6/24) = 1`. -/
lemma nagv_base : NumberOfAGVs baseState = 1 := by
  rw [NumberOfAGVs,
    show AGVDailyTime baseState / baseState.inputs.agv.agv_max_shift_length =
        (19 : ℚ) / 60 by
      rw [AGVDailyTime, AGVDailyEnergy, AGVDailyDistance, adm_base]
      norm_num [baseState, baseAgv]]
  exact ceil_eval _ 1 (by norm_num) (by norm_num)

/-- Baseline: `AnnualSavings = 10696.662 - 3310.328 = 7386.334`. -/
lemma savings_base : AnnualSavings baseState = 3693167 / 500 := by
  rw [AnnualSavings, VehicleAnnualCost, VehicleAnnualOperationCost,
    VehicleEnergyCost, VehicleOperatorCost, VehicleAnnualMaintenanceCost,
    VehicleDailyTime, VehicleDailyDistance, vdm_base, nveh_base,
    AGVAnnualCost, AGVAnnualOperationCost, AGVEnegyCost, AGVDataCost,
    AGVDisengagementCost, AGVCostPerDisengagement, AGVAnnualMaintenanceCost,
    AGVLeasingPrice, AGVDailyDistance, adm_base, nagv_base]
  norm_num [baseState, baseAssumption, baseVehicle, baseAgv]

/-- Baseline: `InvestmentCost = 74000 - 115000 = -41000`. -/
lemma invest_base : InvestmentCost baseState = -41000 := by
  rw [InvestmentCost, VehiclePurchasePrice, AGVPurchasePrice, nveh_base, nagv_base]
  norm_num [baseState, baseVehicle, baseAgv]

/-- Baseline: `EndOfLifePrice = 1800 - 4000 = -2200`. -/
lemma eol_base : EndOfLifePrice baseState = -2200 := by
  rw [EndOfLifePrice, VehicleEndOfLifeCost, AGVEndOfLifeCost, nveh_base, nagv_base]
  norm_num [baseState, baseVehicle, baseAgv]

/-- Baseline cash flows: investment, six years of savings, savings plus EOL. -/
lemma cashFlows_base :
    cashFlows baseState =
      [-41000] ++ List.replicate 6 (3693167 / 500) ++ [2593167 / 500] := by
  rw [cashFlows, invest_base, savings_base, eol_base,
    show (pyInt baseState.assumptions.years_of_operation - 1).toNat = 6 by
      norm_num [baseState, baseAssumption, pyInt]
      decide]
  norm_num

/-- Baseline cash flows, flattened. -/
lemma cashFlows_base_flat :
    cashFlows baseState =
      [-41000, 3693167 / 500, 3693167 / 500, 3693167 / 500, 3693167 / 500,
        3693167 / 500, 3693167 / 500, 2593167 / 500] := by
  rw [cashFlows_base]; rfl

/-- The CHEAPER AGV scenario is likewise a fixed point of the sanity clamps. -/
lemma clampState_cheaper : clampState cheaperState = cheaperState := by
  norm_num [clampState, cheaperState, baseState, baseAssumption, baseVehicle,
    baseAgv, np_clip, pyInt]

/-- CHEAPER AGV: the AGV fleet size is unchanged (`agv_cost` is not read by it). -/
lemma nagv_cheaper : NumberOfAGVs cheaperState = 1 := by
  rw [show NumberOfAGVs cheaperState = NumberOfAGVs baseState from rfl, nagv_base]

/-- CHEAPER AGV: the vehicle fleet size is unchanged. -/
lemma nveh_cheaper : NumberOfVehicles cheaperState = 1 := by
  rw [show NumberOfVehicles cheaperState = NumberOfVehicles baseState from rfl,
    nveh_base]

/-- CHEAPER AGV: annual savings are unchanged (`agv_cost` only enters the
purchase price). -/
lemma savings_cheaper : AnnualSavings cheaperState = 3693167 / 500 := by
  rw [show AnnualSavings cheaperState = AnnualSavings baseState from rfl,
    savings_base]

/-- CHEAPER AGV: end-of-life price is unchanged. -/
lemma eol_cheaper : EndOfLifePrice cheaperState = -2200 := by
  rw [show EndOfLifePrice cheaperState = EndOfLifePrice baseState from rfl,
    eol_base]

/-- CHEAPER AGV: `InvestmentCost = 74000 - 86250 = -12250`. -/
lemma invest_cheaper : InvestmentCost cheaperState = -12250 := by
  rw [InvestmentCost, VehiclePurchasePrice, AGVPurchasePrice, nveh_cheaper,
    nagv_cheaper]
  norm_num [cheaperState, baseState, baseVehicle, baseAgv]

/-- CHEAPER AGV cash flows, flattened. -/
lemma cashFlows_cheaper_flat :
    cashFlows cheaperState =
      [-12250, 3693167 / 500, 3693167 / 500, 3693167 / 500, 3693167 / 500,
        3693167 / 500, 3693167 / 500, 2593167 / 500] := by
  rw [cashFlows, invest_cheaper, savings_cheaper, eol_cheaper,
    show (pyInt cheaperState.assumptions.years_of_operation - 1).toNat = 6 by
      norm_num [cheaperState, baseState, baseAssumption, pyInt]
      decide]
  norm_num
  rfl

/-! ### Claim theorems -/

/-- C6: for every `Assumption` record, regardless of `technology_readiness`
(and for every possible behaviour `e` of `np.exp`), the three values returned
by `ModelAGVMission` lie within the documented clamp bounds:
`average_speed ∈ [0.5, 64]` km/hr, `disengagements_per_km ∈ [0.0008, 2]`, and
`time_per_disengagement ∈ [0.5, 120]` minutes. -/
theorem claim6_mission_clamp_bounds (e : ℚ → ℚ) (a : Assumption) :
    (0.5 ≤ (ModelAGVMission e a).2.1 ∧ (ModelAGVMission e a).2.1 ≤ 64) ∧
    (0.0008 ≤ (ModelAGVMission e a).2.2.1 ∧ (ModelAGVMission e a).2.2.1 ≤ 2) ∧
    (0.5 ≤ (ModelAGVMission e a).2.2.2 ∧ (ModelAGVMission e a).2.2.2 ≤ 120) := by
  simp only [ModelAGVMission]
  exact ⟨np_clip_mem _ _ _ (by norm_num), np_clip_mem _ _ _ (by norm_num),
    np_clip_mem _ _ _ (by norm_num)⟩

/-- C7: on the concrete §8 scenario the vehicle fleet size is exactly 1 and
the AGV fleet size (`num_robots`) is exactly 1, and the model is
deterministic: two evaluations on equal inputs return equal outputs
(for any fixed behaviour of the external `npf.pmt`/`npf.nper`). -/
theorem claim7_baseline_scenario :
    NumberOfVehicles (clampState baseState) = 1 ∧
    (∀ pmtF nperF : ℚ → ℚ → ℚ → ℚ,
      ((ModelAGVUseCase pmtF nperF baseState).2).map Output.num_robots = some 1) ∧
    (∀ pmtF nperF : ℚ → ℚ → ℚ → ℚ, ∀ s t : State,
      s = t → ModelAGVUseCase pmtF nperF s = ModelAGVUseCase pmtF nperF t) := by
  refine ⟨by rw [clampState_base, nveh_base], fun pmtF nperF => ?_,
    fun pmtF nperF s t h => by rw [h]⟩
  rw [ModelAGVUseCase]
  rw [if_neg (by rw [clampState_base]; norm_num [baseState, baseVehicle, baseAgv])]
  rw [clampState_base, nagv_base]
  rfl

/-- C7 witness: the determinism conjunct applied at the baseline input. -/
theorem claim7_witness :
    ModelAGVUseCase (fun _ _ _ => 0) (fun _ _ _ => 0) baseState =
      ModelAGVUseCase (fun _ _ _ => 0) (fun _ _ _ => 0) baseState :=
  claim7_baseline_scenario.2.2 (fun _ _ _ => 0) (fun _ _ _ => 0)
    baseState baseState rfl

/-- The npv of the baseline cash flows is strictly below that of the
CHEAPER AGV cash flows (the sequences differ only in the first, undiscounted
entry: `-41000` versus `-12250`). -/
lemma npv_base_lt_cheaper :
    npf_npv baseState.assumptions.discount_rate (cashFlows baseState) <
      npf_npv baseState.assumptions.discount_rate (cashFlows cheaperState) := by
  rw [cashFlows_base_flat, cashFlows_cheaper_flat,
    show baseState.assumptions.discount_rate = 1 / 20 by
      norm_num [baseState, baseAssumption]]
  norm_num [npf_npv, npvFrom]

/-- C9: starting from the §8 baseline and holding every other input fixed,
multiplying `agv_cost` by `0.75` strictly increases the npv returned by
`ModelAGVUseCase` (for any behaviour of the external `npf.pmt`/`npf.nper`). -/
theorem claim9_cheaper_agv_npv (pmtF nperF : ℚ → ℚ → ℚ → ℚ) :
    ∃ a b : ℚ,
      ((ModelAGVUseCase pmtF nperF cheaperState).2).map Output.npv = some a ∧
      ((ModelAGVUseCase pmtF nperF baseState).2).map Output.npv = some b ∧
      b < a := by
  refine ⟨npf_npv baseState.assumptions.discount_rate (cashFlows cheaperState),
    npf_npv baseState.assumptions.discount_rate (cashFlows baseState),
    ?_, ?_, npv_base_lt_cheaper⟩
  · rw [ModelAGVUseCase,
      if_neg (by rw [clampState_cheaper]
                 norm_num [cheaperState, baseState, baseVehicle, baseAgv])]
    rw [clampState_cheaper]
    rfl
  · rw [ModelAGVUseCase,
      if_neg (by rw [clampState_base]
                 norm_num [baseState, baseVehicle, baseAgv])]
    rw [clampState_base]
    rfl

/-- C5: for `years_of_operation > 1` (and well-defined capacities), the
cash-flow sequence produced by `ModelAGVUseCase` is `[investment_cost]`,
then `floor(years) - 1` repetitions of `annual_savings`, then one final
entry `annual_savings + eol_savings`; its length is `floor(years) + 1`. -/
theorem claim5_cash_flow_sequence (pmtF nperF : ℚ → ℚ → ℚ → ℚ) (s : State)
    (hy : 1 < s.assumptions.years_of_operation)
    (hv : s.inputs.vehicle.vehicle_material_capacity ≠ 0)
    (ha : s.inputs.agv.agv_material_capacity ≠ 0) :
    ((ModelAGVUseCase pmtF nperF s).2).map Output.cash_flows =
      some ([InvestmentCost (clampState s)] ++
        List.replicate (⌊s.assumptions.years_of_operation⌋ - 1).toNat
          (AnnualSavings (clampState s)) ++
        [AnnualSavings (clampState s) + EndOfLifePrice (clampState s)]) ∧
    ((ModelAGVUseCase pmtF nperF s).2).map (fun o => (o.cash_flows.length : ℤ)) =
      some (⌊s.assumptions.years_of_operation⌋ + 1) := by
  have hfloor : 1 ≤ ⌊s.assumptions.years_of_operation⌋ :=
    Int.le_floor.mpr (by exact_mod_cast hy.le)
  have hpy : pyInt (clampState s).assumptions.years_of_operation =
      ⌊s.assumptions.years_of_operation⌋ := by
    show pyInt s.assumptions.years_of_operation = _
    rw [pyInt, if_neg (by push_neg; linarith)]
  have hcf : cashFlows (clampState s) =
      [InvestmentCost (clampState s)] ++
        List.replicate (⌊s.assumptions.years_of_operation⌋ - 1).toNat
          (AnnualSavings (clampState s)) ++
        [AnnualSavings (clampState s) + EndOfLifePrice (clampState s)] := by
    rw [cashFlows, hpy]
  have hcond : ¬((clampState s).inputs.vehicle.vehicle_material_capacity = 0 ∨
      (clampState s).inputs.agv.agv_material_capacity = 0) := not_or.mpr ⟨hv, ha⟩
  have hlen : ((cashFlows (clampState s)).length : ℤ) =
      ⌊s.assumptions.years_of_operation⌋ + 1 := by
    rw [hcf]
    simp only [List.length_append, List.length_replicate, List.length_cons,
      List.length_nil]
    push_cast
    omega
  rw [ModelAGVUseCase, if_neg hcond]
  exact ⟨congrArg some hcf, congrArg some hlen⟩

/-- C5 witness: the cash-flow length property at the §8 baseline. -/
theorem claim5_witness :
    ((ModelAGVUseCase constZero constZero baseState).2).map
        (fun o => (o.cash_flows.length : ℤ)) =
      some (⌊baseState.assumptions.years_of_operation⌋ + 1) :=
  (claim5_cash_flow_sequence constZero constZero baseState
    (by norm_num [baseState, baseAssumption])
    (by norm_num [baseState, baseVehicle])
    (by norm_num [baseState, baseAgv])).2

/-- The investment cost is never positive, on any state. -/
lemma investmentCost_nonpos (s : State) : InvestmentCost s ≤ 0 := by
  rw [InvestmentCost]
  split
  · linarith
  · exact le_refl 0

/-- C10: for every input, the investment cost computed by `ModelAGVUseCase`
is never positive; it equals the strictly negative difference
`vehicle_purchase - agv_purchase` when `vehicle_purchase < agv_purchase` and
`0` otherwise, and the first entry of the produced `cash_flows` is the
investment cost, hence `≤ 0`. -/
theorem claim10_investment_nonpositive (pmtF nperF : ℚ → ℚ → ℚ → ℚ) (s : State) :
    InvestmentCost s ≤ 0 ∧
    (VehiclePurchasePrice s < AGVPurchasePrice s →
      InvestmentCost s = VehiclePurchasePrice s - AGVPurchasePrice s ∧
      InvestmentCost s < 0) ∧
    (¬ VehiclePurchasePrice s < AGVPurchasePrice s → InvestmentCost s = 0) ∧
    (∀ out : Output, (ModelAGVUseCase pmtF nperF s).2 = some out →
      out.cash_flows.head? = some (InvestmentCost (clampState s)) ∧
      InvestmentCost (clampState s) ≤ 0) := by
  refine ⟨investmentCost_nonpos s, fun h => ⟨if_pos h, ?_⟩, fun h => if_neg h, ?_⟩
  · rw [InvestmentCost, if_pos h]
    linarith
  · intro out hout
    rw [ModelAGVUseCase] at hout
    split at hout
    · exact absurd hout (by simp)
    · refine ⟨?_, investmentCost_nonpos (clampState s)⟩
      have : out.cash_flows = cashFlows (clampState s) := by
        have h2 := Option.some.inj hout
        rw [← h2]
      rw [this, cashFlows]
      rfl

/-- C10 witness: at the §8 baseline the vehicle purchase (74000) is below the
AGV purchase (115000), so the investment cost is their strictly negative
difference. -/
theorem claim10_witness :
    InvestmentCost baseState =
      VehiclePurchasePrice baseState - AGVPurchasePrice baseState ∧
    InvestmentCost baseState < 0 :=
  (claim10_investment_nonpositive constZero constZero baseState).2.1
    (by rw [VehiclePurchasePrice, AGVPurchasePrice, nveh_base, nagv_base]
        norm_num [baseState, baseVehicle, baseAgv])

/-- C1 (amended): with positive capacities, speeds, shift lengths, material
to move, mission length and charge rate (and nonnegative AGV energy
consumption), fleet sizing uses ceiling: the daily missions and both fleet
sizes are the ceilings the source computes, and each fleet size is a
positive integer at least `daily_time / max_shift_length`. -/
theorem claim1_fleet_sizing_ceiling (s : State)
    (hvc : 0 < s.inputs.vehicle.vehicle_material_capacity)
    (hvs : 0 < s.inputs.vehicle.vehicle_average_speed)
    (hvl : 0 < s.inputs.vehicle.vehicle_max_shift_length)
    (hac : 0 < s.inputs.agv.agv_material_capacity)
    (has : 0 < s.inputs.agv.agv_average_speed)
    (hal : 0 < s.inputs.agv.agv_max_shift_length)
    (hmm : 0 < s.inputs.material_to_move)
    (hml : 0 < s.inputs.mission_length)
    (hcr : 0 < s.inputs.agv.agv_charge_rate)
    (hec : 0 ≤ s.inputs.agv.agv_energy_consumption) :
    VehicleDailyMissions s =
      ⌈s.inputs.material_to_move / s.inputs.vehicle.vehicle_material_capacity⌉ ∧
    AGVDailyMissions s =
      ⌈s.inputs.material_to_move / s.inputs.agv.agv_material_capacity⌉ ∧
    NumberOfVehicles s =
      ⌈VehicleDailyTime s / s.inputs.vehicle.vehicle_max_shift_length⌉ ∧
    NumberOfAGVs s = ⌈AGVDailyTime s / s.inputs.agv.agv_max_shift_length⌉ ∧
    (1 ≤ NumberOfVehicles s ∧
      VehicleDailyTime s / s.inputs.vehicle.vehicle_max_shift_length ≤
        (NumberOfVehicles s : ℚ)) ∧
    (1 ≤ NumberOfAGVs s ∧
      AGVDailyTime s / s.inputs.agv.agv_max_shift_length ≤ (NumberOfAGVs s : ℚ)) := by
  have hvdm : 0 < VehicleDailyMissions s :=
    Int.ceil_pos.mpr (div_pos hmm hvc)
  have hvdist : 0 < VehicleDailyDistance s :=
    mul_pos hml (by exact_mod_cast hvdm)
  have hvtime : 0 < VehicleDailyTime s := div_pos hvdist hvs
  have hvq : 0 < VehicleDailyTime s / s.inputs.vehicle.vehicle_max_shift_length :=
    div_pos hvtime hvl
  have hadm : 0 < AGVDailyMissions s := Int.ceil_pos.mpr (div_pos hmm hac)
  have hadist : 0 < AGVDailyDistance s := mul_pos hml (by exact_mod_cast hadm)
  have hatime : 0 < AGVDailyTime s :=
    add_pos_of_pos_of_nonneg (div_pos hadist has)
      (div_nonneg (mul_nonneg hadist.le hec) hcr.le)
  have haq : 0 < AGVDailyTime s / s.inputs.agv.agv_max_shift_length :=
    div_pos hatime hal
  exact ⟨rfl, rfl, rfl, rfl,
    ⟨Int.ceil_pos.mpr hvq, Int.le_ceil _⟩,
    ⟨Int.ceil_pos.mpr haq, Int.le_ceil _⟩⟩

/-- C1 counterexample: `zeroMaterialState` has positive capacities, speeds
and shift lengths for both fleets, yet both fleet sizes are `0`, not
positive integers — refuting the claim as stated (its hypotheses say nothing
about `material_to_move`, which is `0` here). -/
theorem claim1_cex :
    (0 < zeroMaterialState.inputs.vehicle.vehicle_material_capacity ∧
     0 < zeroMaterialState.inputs.vehicle.vehicle_average_speed ∧
     0 < zeroMaterialState.inputs.vehicle.vehicle_max_shift_length ∧
     0 < zeroMaterialState.inputs.agv.agv_material_capacity ∧
     0 < zeroMaterialState.inputs.agv.agv_average_speed ∧
     0 < zeroMaterialState.inputs.agv.agv_max_shift_length) ∧
    NumberOfVehicles zeroMaterialState = 0 ∧
    NumberOfAGVs zeroMaterialState = 0 := by
  have hv : VehicleDailyMissions zeroMaterialState = 0 := by
    rw [VehicleDailyMissions,
      show zeroMaterialState.inputs.material_to_move /
          zeroMaterialState.inputs.vehicle.vehicle_material_capacity = (0 : ℚ) by
        norm_num [zeroMaterialState, baseState, baseVehicle]]
    exact Int.ceil_zero
  have ha : AGVDailyMissions zeroMaterialState = 0 := by
    rw [AGVDailyMissions,
      show zeroMaterialState.inputs.material_to_move /
          zeroMaterialState.inputs.agv.agv_material_capacity = (0 : ℚ) by
        norm_num [zeroMaterialState, baseState, baseAgv]]
    exact Int.ceil_zero
  refine ⟨by norm_num [zeroMaterialState, baseState, baseVehicle, baseAgv], ?_, ?_⟩
  · rw [NumberOfVehicles,
      show VehicleDailyTime zeroMaterialState /
          zeroMaterialState.inputs.vehicle.vehicle_max_shift_length = (0 : ℚ) by
        rw [VehicleDailyTime, VehicleDailyDistance, hv]
        norm_num]
    exact Int.ceil_zero
  · rw [NumberOfAGVs,
      show AGVDailyTime zeroMaterialState /
          zeroMaterialState.inputs.agv.agv_max_shift_length = (0 : ℚ) by
        rw [AGVDailyTime, AGVDailyEnergy, AGVDailyDistance, ha]
        norm_num]
    exact Int.ceil_zero

/-- C1 witness: both fleet sizes are positive at the §8 baseline. -/
theorem claim1_witness :
    1 ≤ NumberOfVehicles baseState ∧ 1 ≤ NumberOfAGVs baseState :=
  ⟨(claim1_fleet_sizing_ceiling baseState
      (by norm_num [baseState, baseVehicle]) (by norm_num [baseState, baseVehicle])
      (by norm_num [baseState, baseVehicle]) (by norm_num [baseState, baseAgv])
      (by norm_num [baseState, baseAgv]) (by norm_num [baseState, baseAgv])
      (by norm_num [baseState]) (by norm_num [baseState])
      (by norm_num [baseState, baseAgv])
      (by norm_num [baseState, baseAgv])).2.2.2.2.1.1,
   (claim1_fleet_sizing_ceiling baseState
      (by norm_num [baseState, baseVehicle]) (by norm_num [baseState, baseVehicle])
      (by norm_num [baseState, baseVehicle]) (by norm_num [baseState, baseAgv])
      (by norm_num [baseState, baseAgv]) (by norm_num [baseState, baseAgv])
      (by norm_num [baseState]) (by norm_num [baseState])
      (by norm_num [baseState, baseAgv])
      (by norm_num [baseState, baseAgv])).2.2.2.2.2.1⟩

/-- Inserting one element grows the length by one (for any index). -/
lemma np_insert_length (k : ℕ) (v : ℚ) (xs : List ℚ) :
    (np_insert k v xs).length = xs.length + 1 := by
  induction k generalizing xs with
  | zero => rfl
  | succ k ih =>
    cases xs with
    | nil => rfl
    | cons x xs => simp [np_insert, ih]

/-- Inserting `v` adds exactly one occurrence of `v` (for any index). -/
lemma np_insert_count_self (k : ℕ) (v : ℚ) (xs : List ℚ) :
    (np_insert k v xs).count v = xs.count v + 1 := by
  induction k generalizing xs with
  | zero => simp [np_insert]
  | succ k ih =>
    cases xs with
    | nil => simp [np_insert]
    | cons x xs =>
      simp only [np_insert, List.count_cons, ih]
      omega

/-- A linspace has exactly the requested number of samples. -/
lemma np_linspace_length (a b : ℚ) (n : ℕ) : (np_linspace a b n).length = n := by
  rw [np_linspace]
  split
  · simp [*]
  · split
    · simp [*]
    · rw [List.length_map, List.length_range]

/-- For an even sample count and a nonzero symmetric range, no linspace
sample is zero: a zero sample would need index `k` with `2k = n - 1`, which
has no solution for even `n`. -/
lemma np_linspace_even_no_zero (p : ℚ) (hp : 0 < p) (n : ℕ) (hn : n % 2 = 0) :
    ∀ x ∈ np_linspace (-p) p n, x ≠ 0 := by
  intro x hx
  rw [np_linspace] at hx
  split at hx
  · simp at hx
  · split at hx
    · omega
    · rename_i h0 h1
      simp only [List.mem_map, List.mem_range] at hx
      obtain ⟨k, hk, hke⟩ := hx
      intro hx0
      rw [hx0] at hke
      have hn2 : 2 ≤ n := by omega
      have hne : ((n : ℚ) - 1) ≠ 0 := by
        have : (2 : ℚ) ≤ (n : ℚ) := by exact_mod_cast hn2
        linarith
      have h2 : (p - -p) * k / ((n : ℚ) - 1) = p := by linarith
      rw [div_eq_iff hne] at h2
      have h3 : 2 * (k : ℚ) = (n : ℚ) - 1 := by
        have hp' : p ≠ 0 := ne_of_gt hp
        have : p * (2 * (k : ℚ)) = p * ((n : ℚ) - 1) := by ring_nf; ring_nf at h2; linarith
        exact mul_left_cancel₀ hp' this
      have h4 : (2 * k + 1 : ℚ) = (n : ℚ) := by linarith
      have h5 : 2 * k + 1 = n := by exact_mod_cast h4
      omega

/-- C2 (amended): for an even discretization count `numLevels` and a positive
symmetric range, the offset sequence of `SenstivityAnalysis` has
`numLevels + 1` entries and contains exactly one `0%` entry (the one inserted
at the midpoint), so the unperturbed baseline is evaluated exactly once. -/
theorem claim2_offsets_single_zero (p : ℚ) (n : ℕ) (hp : 0 < p)
    (hn : n % 2 = 0) :
    (minMaxVecOffsets p n).length = n + 1 ∧
    (minMaxVecOffsets p n).count 0 = 1 := by
  constructor
  · rw [minMaxVecOffsets, np_insert_length, List.length_map, np_linspace_length]
  · rw [minMaxVecOffsets, np_insert_count_self]
    have hz : ((np_linspace (-p) p n).map (fun x => x / 100)).count 0 = 0 := by
      rw [List.count_eq_zero]
      intro hmem
      simp only [List.mem_map] at hmem
      obtain ⟨x, hx, hxe⟩ := hmem
      have hx0 : x = 0 := by
        have h100 : (100 : ℚ) ≠ 0 := by norm_num
        field_simp at hxe
        exact hxe
      exact np_linspace_even_no_zero p hp n hn x hx hx0
    rw [hz]

/-- Concrete linspace: `np.linspace(-50, 50, 3) = [-50, 0, 50]`. -/
lemma np_linspace_50_3 : np_linspace (-50) 50 3 = [-50, 0, 50] := by
  rw [np_linspace]
  norm_num
  rw [show List.range 3 = [0, 1, 2] from rfl]
  simp only [List.map_cons, List.map_nil]
  norm_num

/-- C2 counterexample: for the odd discretization count `numLevels = 3` and
range `50%`, the offset sequence is `[-1/2, 0, 0, 1/2]` — the evenly spaced
samples already contain `0%` and a second `0%` is inserted at the midpoint,
so the baseline is evaluated twice, refuting the
"exactly one 0% entry" part of the claim for every `numLevels`. -/
theorem claim2_cex :
    minMaxVecOffsets 50 3 = [-1 / 2, 0, 0, 1 / 2] ∧
    (minMaxVecOffsets 50 3).count 0 = 2 := by
  have h : minMaxVecOffsets 50 3 = [-1 / 2, 0, 0, 1 / 2] := by
    rw [minMaxVecOffsets, np_linspace_50_3]
    simp only [List.map_cons, List.map_nil]
    norm_num
    simp [np_insert]
  refine ⟨h, ?_⟩
  rw [h]
  simp [List.count_cons]

/-- C2 witness: the even count used by the main script (`numLevels = 30`,
range `50%`) yields 31 offsets with exactly one `0%` entry. -/
theorem claim2_witness :
    (0 : ℚ) < 50 ∧ 30 % 2 = 0 ∧
    ((minMaxVecOffsets 50 30).length = 30 + 1 ∧
      (minMaxVecOffsets 50 30).count 0 = 1) :=
  ⟨by norm_num, by norm_num,
    claim2_offsets_single_zero 50 30 (by norm_num) (by norm_num)⟩

/-- Nonnegative cash flows give a nonnegative discounted tail. -/
lemma npvFrom_nonneg (r : ℚ) (hr : 0 ≤ r) (cs : List ℚ)
    (h : ∀ c ∈ cs, 0 ≤ c) : ∀ t : ℕ, 0 ≤ npvFrom r t cs := by
  induction cs with
  | nil => intro t; simp [npvFrom]
  | cons c cs ih =>
    intro t
    have h1 : 0 ≤ c / (1 + r) ^ t :=
      div_nonneg (h c (by simp)) (pow_nonneg (by linarith) t)
    have h2 := ih (fun x hx => h x (by simp [hx])) (t + 1)
    show 0 ≤ c / (1 + r) ^ t + npvFrom r (t + 1) cs
    linarith

/-- Positive cash flows give a positive discounted tail. -/
lemma npvFrom_pos (r : ℚ) (hr : 0 ≤ r) (c : ℚ) (cs : List ℚ)
    (h : ∀ x ∈ c :: cs, 0 < x) (t : ℕ) : 0 < npvFrom r t (c :: cs) := by
  have h1 : 0 < c / (1 + r) ^ t :=
    div_pos (h c (by simp)) (pow_pos (by linarith) t)
  have h2 := npvFrom_nonneg r hr cs (fun x hx => (h x (by simp [hx])).le) (t + 1)
  show 0 < c / (1 + r) ^ t + npvFrom r (t + 1) cs
  linarith

/-- Raising the discount rate weakly lowers every discounted tail of a
nonnegative cash-flow sequence. -/
lemma npvFrom_anti (r1 r2 : ℚ) (h0 : 0 ≤ r1) (h12 : r1 < r2) (cs : List ℚ)
    (h : ∀ c ∈ cs, 0 ≤ c) : ∀ t : ℕ, npvFrom r2 t cs ≤ npvFrom r1 t cs := by
  induction cs with
  | nil => intro t; simp [npvFrom]
  | cons c cs ih =>
    intro t
    have hb : (0 : ℚ) < (1 + r1) ^ t := pow_pos (by linarith) t
    have hbb : (1 + r1) ^ t ≤ (1 + r2) ^ t :=
      pow_le_pow_left₀ (by linarith) (by linarith) t
    have hhead : c / (1 + r2) ^ t ≤ c / (1 + r1) ^ t :=
      div_le_div_of_nonneg_left (h c (by simp)) hb hbb
    have htail := ih (fun x hx => h x (by simp [hx])) (t + 1)
    show c / (1 + r2) ^ t + npvFrom r2 (t + 1) cs ≤
      c / (1 + r1) ^ t + npvFrom r1 (t + 1) cs
    linarith

/-- Raising the discount rate strictly lowers a positive discounted tail that
starts at period `t ≥ 1`. -/
lemma npvFrom_strict_anti (r1 r2 : ℚ) (h0 : 0 ≤ r1) (h12 : r1 < r2)
    (c : ℚ) (cs : List ℚ) (h : ∀ x ∈ c :: cs, 0 < x) (t : ℕ) (ht : 1 ≤ t) :
    npvFrom r2 t (c :: cs) < npvFrom r1 t (c :: cs) := by
  have hb1 : (0 : ℚ) < 1 + r1 := by linarith
  have hb : (0 : ℚ) < (1 + r1) ^ t := pow_pos hb1 t
  have hbb : (1 + r1) ^ t < (1 + r2) ^ t :=
    pow_lt_pow_left₀ (by linarith) (by linarith) (by omega)
  have hhead : c / (1 + r2) ^ t < c / (1 + r1) ^ t :=
    div_lt_div_of_pos_left (h c (by simp)) hb hbb
  have htail := npvFrom_anti r1 r2 h0 h12 cs
    (fun x hx => (h x (by simp [hx])).le) (t + 1)
  show c / (1 + r2) ^ t + npvFrom r2 (t + 1) cs <
    c / (1 + r1) ^ t + npvFrom r1 (t + 1) cs
  linarith

/-- C8 (amended): for every cash-flow sequence with at least two entries, all
strictly positive, and all discount rates `0 ≤ r1 < r2`, the npv at `r1` is
strictly greater than the npv at `r2` — npv is strictly decreasing in the
discount rate.  (A one-entry sequence has a rate-independent npv, so the
length hypothesis is necessary.) -/
theorem claim8_npv_strict_decrease (r1 r2 : ℚ) (cs : List ℚ) (h0 : 0 ≤ r1)
    (h12 : r1 < r2) (hpos : ∀ c ∈ cs, 0 < c) (hlen : 2 ≤ cs.length) :
    npf_npv r2 cs < npf_npv r1 cs := by
  cases cs with
  | nil => simp at hlen
  | cons c cs' =>
    cases cs' with
    | nil => simp at hlen
    | cons d rest =>
      have e : ∀ r : ℚ, npf_npv r (c :: d :: rest) =
          c / (1 + r) ^ 0 + npvFrom r 1 (d :: rest) := fun r => rfl
      rw [e r1, e r2]
      simp only [pow_zero, div_one]
      have htail := npvFrom_strict_anti r1 r2 h0 h12 d rest
        (fun x hx => hpos x (by simp at hx; rcases hx with h | h <;> simp [h]))
        1 le_rfl
      linarith

/-- C8 counterexample: the single-entry positive sequence `[100]` has the
same npv at rates `0` and `1` (`r1 = 0 < 1 = r2`, both nonnegative), so the
claimed strict decrease fails for it. -/
theorem claim8_cex :
    (0 : ℚ) < 100 ∧ (0 : ℚ) ≤ 0 ∧ (0 : ℚ) < 1 ∧
    ¬ (npf_npv 1 [(100 : ℚ)] < npf_npv 0 [(100 : ℚ)]) := by
  refine ⟨by norm_num, le_refl 0, by norm_num, ?_⟩
  have h1 : npf_npv 1 [(100 : ℚ)] = 100 := by
    show (100 : ℚ) / (1 + 1) ^ 0 + 0 = 100
    norm_num
  have h2 : npf_npv 0 [(100 : ℚ)] = 100 := by
    show (100 : ℚ) / (1 + 0) ^ 0 + 0 = 100
    norm_num
  rw [h1, h2]
  exact lt_irrefl 100

/-- C8 witness: the two-entry positive sequence `[1, 1]` at rates `0 < 1`. -/
theorem claim8_witness :
    npf_npv 1 [(1 : ℚ), 1] < npf_npv 0 [(1 : ℚ), 1] :=
  claim8_npv_strict_decrease 0 1 [(1 : ℚ), 1] (le_refl 0) (by norm_num)
    (by intro c hc; simp at hc; simp [hc])
    (by norm_num)

/-- C4 (code bug): `ModelAGVUseCase` does not reject a zero-or-negative
capacity/speed/shift input.  At `negCapacityState` — the §8 baseline with
`vehicle_material_capacity = -40` — it silently computes the non-physical
`VehicleDailyMissions = ceil(200 / -40) = -5` and returns a full `Output`
with no error, for every behaviour of the external `npf` functions. -/
theorem claim4_unguarded_domain_error :
    negCapacityState.inputs.vehicle.vehicle_material_capacity < 0 ∧
    VehicleDailyMissions negCapacityState = -5 ∧
    ∀ pmtF nperF : ℚ → ℚ → ℚ → ℚ,
      ((ModelAGVUseCase pmtF nperF negCapacityState).2).isSome = true := by
  refine ⟨by norm_num [negCapacityState, baseState, baseVehicle], ?_, ?_⟩
  · rw [VehicleDailyMissions,
      show negCapacityState.inputs.material_to_move /
          negCapacityState.inputs.vehicle.vehicle_material_capacity = (-5 : ℚ) by
        norm_num [negCapacityState, baseState, baseVehicle]]
    exact ceil_eval (-5) (-5) (by norm_num) (by norm_num)
  · intro pmtF nperF
    have hcond : ¬((clampState negCapacityState).inputs.vehicle.vehicle_material_capacity = 0 ∨
        (clampState negCapacityState).inputs.agv.agv_material_capacity = 0) := by
      show ¬((-40 : ℚ) = 0 ∨ (20 : ℚ) = 0)
      norm_num
    rw [ModelAGVUseCase, if_neg hcond]
    rfl

/-- Concrete linspace: `np.linspace(-100, 100, 2) = [-100, 100]`. -/
lemma np_linspace_100_2 : np_linspace (-100) 100 2 = [-100, 100] := by
  rw [np_linspace]
  norm_num
  rw [show List.range 2 = [0, 1] from rfl]
  simp only [List.map_cons, List.map_nil]
  norm_num

/-- Offsets for range `100%` and `numLevels = 2`: `[-1, 0, 1]` — the first
trial multiplies the field by `1 + (-1) = 0`. -/
lemma offsets_100_2 : minMaxVecOffsets 100 2 = [-1, 0, 1] := by
  rw [minMaxVecOffsets, np_linspace_100_2]
  simp only [List.map_cons, List.map_nil]
  norm_num
  simp [np_insert]

/-- When `SenstivityAnalysis` completes normally, the perturbed field is
restored: the restore is the unconditional last statement of the function,
so the returned state carries the original value (for any lawful
getter/setter pair). -/
lemma sens_ok_restores (pmtF nperF : ℚ → ℚ → ℚ → ℚ) (getK : State → ℚ)
    (setK : ℚ → State → State) (hget : ∀ v st, getK (setK v st) = v)
    (minMaxPerc : ℚ) (numLevels : ℕ) (s sEnd : State)
    (rest : List ℚ × List ℚ × List ℚ)
    (hok : SenstivityAnalysis pmtF nperF getK setK minMaxPerc numLevels s =
      .ok (sEnd, rest)) :
    getK sEnd = getK s := by
  simp only [SenstivityAnalysis] at hok
  split at hok
  · exact absurd hok (by simp)
  · rename_i sEnd' valVec npvVec heq
    have h1 := congrArg Prod.fst (Except.ok.inj hok)
    simp only at h1
    rw [← h1, hget]

/-- On the first trial of this run `discount_rate` is set to
`0.05 * (1 + (-1)) = 0`; the capacity, untouched by the loop, is still the
caller's Python `int` zero, so the evaluation raises (`none`) after applying
its in-place clamps. -/
lemma modelFails_zero_capacity :
    ModelAGVUseCase constZero constZero (rateSet 0 zeroCapacityState) =
      (clampState (rateSet 0 zeroCapacityState), none) := by
  rw [ModelAGVUseCase,
    if_pos (Or.inl (show (clampState (rateSet 0 zeroCapacityState)).inputs.vehicle.vehicle_material_capacity = 0 from rfl))]

/-- C3 (code bug): restoration is skipped when an evaluation fails mid-trial.
Run `SenstivityAnalysis` on `discount_rate` with a `100%` range and
`numLevels = 2` from `zeroCapacityState` — the §8 baseline whose caller
supplied `vehicle_material_capacity = 0` (a Python `int`, the §7
domain-error input).  The first trial perturbs `discount_rate` to `0`; the
evaluation then hits the pure-Python division `200 / 0` at line 264 — both
operands caller-supplied `int`s, since the loop only perturbed
`discount_rate` — and raises `ZeroDivisionError`.  The exception propagates
(there is no `try`/`finally`), the final restore is skipped, and the call
ends with `discount_rate` left at the perturbed value `0`, not restored to
the original `1/20`. -/
theorem claim3_restore_skipped_on_failure :
    SenstivityAnalysis constZero constZero rateGet rateSet 100 2
        zeroCapacityState =
      .error (clampState (rateSet 0 zeroCapacityState)) ∧
    (clampState (rateSet 0 zeroCapacityState)).assumptions.discount_rate = 0 ∧
    zeroCapacityState.assumptions.discount_rate = 1 / 20 ∧
    (0 : ℚ) ≠ 1 / 20 := by
  refine ⟨?_, rfl, by norm_num [zeroCapacityState, baseState, baseAssumption],
    by norm_num⟩
  have harg : rateGet zeroCapacityState * (1 + (-1 : ℚ)) = 0 := by
    norm_num [rateGet, zeroCapacityState, baseState, baseAssumption]
  have hloop : sensLoop constZero constZero rateGet rateSet
      (rateGet zeroCapacityState) [-1, 0, 1] zeroCapacityState [] [] =
      .error (clampState (rateSet 0 zeroCapacityState)) := by
    simp only [sensLoop]
    rw [harg, modelFails_zero_capacity]
  simp only [SenstivityAnalysis]
  rw [offsets_100_2, hloop]

end AGVeval
